import Mathlib

/-!
Shallow embedding of the OCHP error-classification layer
(`src/ochp/errors.go` of e-flux-platform/gowsdl).

Go values are modelled as Lean structures; Go struct embedding is
modelled with `extends`, and Go's method promotion is modelled by
explicit forwarding definitions.  A Go `error` interface value that is
only ever queried through its `Error() string` method is modelled as
`GoError`, a wrapper around its message.  Nilable pointers/slices are
modelled with `Option`.
-/

/-- A wrapped underlying error (from http, xml, ...): its `Error()` text. -/
structure GoError where
  msg : String
  deriving DecidableEq

/-- `Error()` of a wrapped underlying error. -/
def GoError.Error (e : GoError) : String := e.msg

/-- The part of `*http.Response` the code reads: its `StatusCode` (a Go `int`). -/
structure HttpResponse where
  StatusCode : Int
  deriving DecidableEq

/-- `Err` from errors.go: transport failure; only an optional wrapped error. -/
structure Err where
  wrapped : Option GoError
  deriving DecidableEq

/-- `func (e Err) Error() string` -/
def Err.Error (e : Err) : String :=
  match e.wrapped with
  | some w => GoError.Error w
  | none => "unknown error"

/-- `func (e Err) Unwrap() error` -/
def Err.Unwrap (e : Err) : Option GoError := e.wrapped

/-- `func (e Err) ResultCode() string` -/
def Err.ResultCode (_ : Err) : String := ""

/-- `func (e Err) ResultDescription() string` -/
def Err.ResultDescription (_ : Err) : String := ""

/-- `func (e Err) HttpResponse() *http.Response` -/
def Err.HttpResponse (_ : Err) : Option HttpResponse := none

/-- `func (e Err) HttpResponseBody() []byte` -/
def Err.HttpResponseBody (_ : Err) : Option (List Nat) := none

/-- `ErrDecode` from errors.go: decode failure; embeds `Err`. -/
structure ErrDecode extends Err where
  httpResponse : Option HttpResponse
  httpResponseBody : Option (List Nat)
  deriving DecidableEq

/-- Promoted `Unwrap` of the embedded `Err`. -/
def ErrDecode.Unwrap (e : ErrDecode) : Option GoError := Err.Unwrap e.toErr

/-- Promoted `ResultCode` of the embedded `Err`. -/
def ErrDecode.ResultCode (e : ErrDecode) : String := Err.ResultCode e.toErr

/-- Promoted `ResultDescription` of the embedded `Err`. -/
def ErrDecode.ResultDescription (e : ErrDecode) : String := Err.ResultDescription e.toErr

/-- `func (e ErrDecode) Error() string`.  Note `fmt.Sprint(" with HTTP status",
e.httpResponse.StatusCode)` inserts no separator because its first operand is a
string, and the wrapped cause is appended after `":\n"`. -/
def ErrDecode.Error (e : ErrDecode) : String :=
  let statusDetails :=
    match e.httpResponse with
    | some r => " with HTTP status" ++ toString r.StatusCode
    | none => ""
  let wrappedErrorDetails :=
    match ErrDecode.Unwrap e with
    | some w => ":\n" ++ GoError.Error w
    | none => ""
  "server responded" ++ statusDetails ++ ", but response was unable to be decoded successfully" ++ wrappedErrorDetails

/-- `func (e ErrDecode) HttpResponse() *http.Response` -/
def ErrDecode.HttpResponse (e : ErrDecode) : Option HttpResponse := e.httpResponse

/-- `func (e ErrDecode) HttpResponseBody() []byte` -/
def ErrDecode.HttpResponseBody (e : ErrDecode) : Option (List Nat) := e.httpResponseBody

/-- `ErrEmptyResponse` from errors.go: embeds `ErrDecode`, no extra fields. -/
structure ErrEmptyResponse extends ErrDecode
  deriving DecidableEq

/-- `func (e ErrEmptyResponse) Error() string`: one fixed message. -/
def ErrEmptyResponse.Error (_ : ErrEmptyResponse) : String :=
  "Server unexpectedly responded with an empty response. This indicates an internal error. This might be caused by a bad request"

/-- Promoted `Unwrap` of the embedded `ErrDecode`. -/
def ErrEmptyResponse.Unwrap (e : ErrEmptyResponse) : Option GoError := ErrDecode.Unwrap e.toErrDecode

/-- Promoted `ResultCode` of the embedded `ErrDecode`. -/
def ErrEmptyResponse.ResultCode (e : ErrEmptyResponse) : String := ErrDecode.ResultCode e.toErrDecode

/-- Promoted `ResultDescription` of the embedded `ErrDecode`. -/
def ErrEmptyResponse.ResultDescription (e : ErrEmptyResponse) : String := ErrDecode.ResultDescription e.toErrDecode

/-- Promoted `HttpResponse` of the embedded `ErrDecode`. -/
def ErrEmptyResponse.HttpResponse (e : ErrEmptyResponse) : Option HttpResponse := ErrDecode.HttpResponse e.toErrDecode

/-- Promoted `HttpResponseBody` of the embedded `ErrDecode`. -/
def ErrEmptyResponse.HttpResponseBody (e : ErrEmptyResponse) : Option (List Nat) := ErrDecode.HttpResponseBody e.toErrDecode

/-- `ochpErr` from errors.go: protocol-result failure; embeds `ErrDecode`. -/
structure ochpErr extends ErrDecode where
  resultCode : String
  resultDescription : String
  deriving DecidableEq

/-- `func (e ochpErr) Error() string`.  Go's
`e.httpResponse == nil || e.resultCode == "" && e.resultDescription == ""`
(with `&&` binding tighter than `||`) is rendered as the `none` match arm plus
the both-empty test. -/
def ochpErr.Error (e : ochpErr) : String :=
  match e.httpResponse with
  | none => ErrDecode.Error e.toErrDecode
  | some r =>
    if e.resultCode = "" ∧ e.resultDescription = "" then
      ErrDecode.Error e.toErrDecode
    else if 200 ≤ r.StatusCode ∧ r.StatusCode < 300 then
      "server responded with http status " ++ toString r.StatusCode ++ " and resultCode \"" ++ e.resultCode ++ "\": " ++ e.resultDescription
    else
      "server responded with resultCode \"" ++ e.resultCode ++ "\": " ++ e.resultDescription

/-- `func (e ochpErr) ResultCode() string` -/
def ochpErr.ResultCode (e : ochpErr) : String := e.resultCode

/-- `func (e ochpErr) ResultDescription() string` -/
def ochpErr.ResultDescription (e : ochpErr) : String := e.resultDescription

/-- Promoted `Unwrap` of the embedded `ErrDecode`. -/
def ochpErr.Unwrap (e : ochpErr) : Option GoError := ErrDecode.Unwrap e.toErrDecode

/-- Promoted `HttpResponse` of the embedded `ErrDecode`. -/
def ochpErr.HttpResponse (e : ochpErr) : Option HttpResponse := ErrDecode.HttpResponse e.toErrDecode

/-- Promoted `HttpResponseBody` of the embedded `ErrDecode`. -/
def ochpErr.HttpResponseBody (e : ochpErr) : Option (List Nat) := ErrDecode.HttpResponseBody e.toErrDecode

/-- `ErrPartly` from errors.go: embeds `ochpErr`, no extra fields. -/
structure ErrPartly extends ochpErr
  deriving DecidableEq

/-- Promoted `Error` of the embedded `ochpErr`. -/
def ErrPartly.Error (e : ErrPartly) : String := ochpErr.Error e.toochpErr

/-- Promoted `Unwrap` of the embedded `ochpErr`. -/
def ErrPartly.Unwrap (e : ErrPartly) : Option GoError := ochpErr.Unwrap e.toochpErr

/-- Promoted `ResultCode` of the embedded `ochpErr`. -/
def ErrPartly.ResultCode (e : ErrPartly) : String := ochpErr.ResultCode e.toochpErr

/-- Promoted `ResultDescription` of the embedded `ochpErr`. -/
def ErrPartly.ResultDescription (e : ErrPartly) : String := ochpErr.ResultDescription e.toochpErr

/-- Promoted `HttpResponse` of the embedded `ochpErr`. -/
def ErrPartly.HttpResponse (e : ErrPartly) : Option HttpResponse := ochpErr.HttpResponse e.toochpErr

/-- Promoted `HttpResponseBody` of the embedded `ochpErr`. -/
def ErrPartly.HttpResponseBody (e : ErrPartly) : Option (List Nat) := ochpErr.HttpResponseBody e.toochpErr

/-- `ErrNotFound` from errors.go: embeds `ochpErr`, no extra fields. -/
structure ErrNotFound extends ochpErr
  deriving DecidableEq

/-- Promoted `Error` of the embedded `ochpErr`. -/
def ErrNotFound.Error (e : ErrNotFound) : String := ochpErr.Error e.toochpErr

/-- Promoted `Unwrap` of the embedded `ochpErr`. -/
def ErrNotFound.Unwrap (e : ErrNotFound) : Option GoError := ochpErr.Unwrap e.toochpErr

/-- Promoted `ResultCode` of the embedded `ochpErr`. -/
def ErrNotFound.ResultCode (e : ErrNotFound) : String := ochpErr.ResultCode e.toochpErr

/-- Promoted `ResultDescription` of the embedded `ochpErr`. -/
def ErrNotFound.ResultDescription (e : ErrNotFound) : String := ochpErr.ResultDescription e.toochpErr

/-- Promoted `HttpResponse` of the embedded `ochpErr`. -/
def ErrNotFound.HttpResponse (e : ErrNotFound) : Option HttpResponse := ochpErr.HttpResponse e.toochpErr

/-- Promoted `HttpResponseBody` of the embedded `ochpErr`. -/
def ErrNotFound.HttpResponseBody (e : ErrNotFound) : Option (List Nat) := ochpErr.HttpResponseBody e.toochpErr

/-- `ErrNotAuthorized` from errors.go: embeds `ochpErr`, no extra fields. -/
structure ErrNotAuthorized extends ochpErr
  deriving DecidableEq

/-- Promoted `Error` of the embedded `ochpErr`. -/
def ErrNotAuthorized.Error (e : ErrNotAuthorized) : String := ochpErr.Error e.toochpErr

/-- Promoted `Unwrap` of the embedded `ochpErr`. -/
def ErrNotAuthorized.Unwrap (e : ErrNotAuthorized) : Option GoError := ochpErr.Unwrap e.toochpErr

/-- Promoted `ResultCode` of the embedded `ochpErr`. -/
def ErrNotAuthorized.ResultCode (e : ErrNotAuthorized) : String := ochpErr.ResultCode e.toochpErr

/-- Promoted `ResultDescription` of the embedded `ochpErr`. -/
def ErrNotAuthorized.ResultDescription (e : ErrNotAuthorized) : String := ochpErr.ResultDescription e.toochpErr

/-- Promoted `HttpResponse` of the embedded `ochpErr`. -/
def ErrNotAuthorized.HttpResponse (e : ErrNotAuthorized) : Option HttpResponse := ochpErr.HttpResponse e.toochpErr

/-- Promoted `HttpResponseBody` of the embedded `ochpErr`. -/
def ErrNotAuthorized.HttpResponseBody (e : ErrNotAuthorized) : Option (List Nat) := ochpErr.HttpResponseBody e.toochpErr

/-- `ErrNotSupported` from errors.go: embeds `ochpErr`, no extra fields. -/
structure ErrNotSupported extends ochpErr
  deriving DecidableEq

/-- Promoted `Error` of the embedded `ochpErr`. -/
def ErrNotSupported.Error (e : ErrNotSupported) : String := ochpErr.Error e.toochpErr

/-- Promoted `Unwrap` of the embedded `ochpErr`. -/
def ErrNotSupported.Unwrap (e : ErrNotSupported) : Option GoError := ochpErr.Unwrap e.toochpErr

/-- Promoted `ResultCode` of the embedded `ochpErr`. -/
def ErrNotSupported.ResultCode (e : ErrNotSupported) : String := ochpErr.ResultCode e.toochpErr

/-- Promoted `ResultDescription` of the embedded `ochpErr`. -/
def ErrNotSupported.ResultDescription (e : ErrNotSupported) : String := ochpErr.ResultDescription e.toochpErr

/-- Promoted `HttpResponse` of the embedded `ochpErr`. -/
def ErrNotSupported.HttpResponse (e : ErrNotSupported) : Option HttpResponse := ochpErr.HttpResponse e.toochpErr

/-- Promoted `HttpResponseBody` of the embedded `ochpErr`. -/
def ErrNotSupported.HttpResponseBody (e : ErrNotSupported) : Option (List Nat) := ochpErr.HttpResponseBody e.toochpErr

/-- `ErrInvalidId` from errors.go: embeds `ochpErr`, no extra fields. -/
structure ErrInvalidId extends ochpErr
  deriving DecidableEq

/-- Promoted `Error` of the embedded `ochpErr`. -/
def ErrInvalidId.Error (e : ErrInvalidId) : String := ochpErr.Error e.toochpErr

/-- Promoted `Unwrap` of the embedded `ochpErr`. -/
def ErrInvalidId.Unwrap (e : ErrInvalidId) : Option GoError := ochpErr.Unwrap e.toochpErr

/-- Promoted `ResultCode` of the embedded `ochpErr`. -/
def ErrInvalidId.ResultCode (e : ErrInvalidId) : String := ochpErr.ResultCode e.toochpErr

/-- Promoted `ResultDescription` of the embedded `ochpErr`. -/
def ErrInvalidId.ResultDescription (e : ErrInvalidId) : String := ochpErr.ResultDescription e.toochpErr

/-- Promoted `HttpResponse` of the embedded `ochpErr`. -/
def ErrInvalidId.HttpResponse (e : ErrInvalidId) : Option HttpResponse := ochpErr.HttpResponse e.toochpErr

/-- Promoted `HttpResponseBody` of the embedded `ochpErr`. -/
def ErrInvalidId.HttpResponseBody (e : ErrInvalidId) : Option (List Nat) := ochpErr.HttpResponseBody e.toochpErr

/-- `ErrServer` from errors.go: embeds `ochpErr`, no extra fields. -/
structure ErrServer extends ochpErr
  deriving DecidableEq

/-- Promoted `Error` of the embedded `ochpErr`. -/
def ErrServer.Error (e : ErrServer) : String := ochpErr.Error e.toochpErr

/-- Promoted `Unwrap` of the embedded `ochpErr`. -/
def ErrServer.Unwrap (e : ErrServer) : Option GoError := ochpErr.Unwrap e.toochpErr

/-- Promoted `ResultCode` of the embedded `ochpErr`. -/
def ErrServer.ResultCode (e : ErrServer) : String := ochpErr.ResultCode e.toochpErr

/-- Promoted `ResultDescription` of the embedded `ochpErr`. -/
def ErrServer.ResultDescription (e : ErrServer) : String := ochpErr.ResultDescription e.toochpErr

/-- Promoted `HttpResponse` of the embedded `ochpErr`. -/
def ErrServer.HttpResponse (e : ErrServer) : Option HttpResponse := ochpErr.HttpResponse e.toochpErr

/-- Promoted `HttpResponseBody` of the embedded `ochpErr`. -/
def ErrServer.HttpResponseBody (e : ErrServer) : Option (List Nat) := ochpErr.HttpResponseBody e.toochpErr

/-- `ErrFormat` from errors.go: embeds `ochpErr`, no extra fields. -/
structure ErrFormat extends ochpErr
  deriving DecidableEq

/-- Promoted `Error` of the embedded `ochpErr`. -/
def ErrFormat.Error (e : ErrFormat) : String := ochpErr.Error e.toochpErr

/-- Promoted `Unwrap` of the embedded `ochpErr`. -/
def ErrFormat.Unwrap (e : ErrFormat) : Option GoError := ochpErr.Unwrap e.toochpErr

/-- Promoted `ResultCode` of the embedded `ochpErr`. -/
def ErrFormat.ResultCode (e : ErrFormat) : String := ochpErr.ResultCode e.toochpErr

/-- Promoted `ResultDescription` of the embedded `ochpErr`. -/
def ErrFormat.ResultDescription (e : ErrFormat) : String := ochpErr.ResultDescription e.toochpErr

/-- Promoted `HttpResponse` of the embedded `ochpErr`. -/
def ErrFormat.HttpResponse (e : ErrFormat) : Option HttpResponse := ochpErr.HttpResponse e.toochpErr

/-- Promoted `HttpResponseBody` of the embedded `ochpErr`. -/
def ErrFormat.HttpResponseBody (e : ErrFormat) : Option (List Nat) := ochpErr.HttpResponseBody e.toochpErr

/-- `ErrRoaming` from errors.go: embeds `ochpErr`, no extra fields. -/
structure ErrRoaming extends ochpErr
  deriving DecidableEq

/-- Promoted `Error` of the embedded `ochpErr`. -/
def ErrRoaming.Error (e : ErrRoaming) : String := ochpErr.Error e.toochpErr

/-- Promoted `Unwrap` of the embedded `ochpErr`. -/
def ErrRoaming.Unwrap (e : ErrRoaming) : Option GoError := ochpErr.Unwrap e.toochpErr

/-- Promoted `ResultCode` of the embedded `ochpErr`. -/
def ErrRoaming.ResultCode (e : ErrRoaming) : String := ochpErr.ResultCode e.toochpErr

/-- Promoted `ResultDescription` of the embedded `ochpErr`. -/
def ErrRoaming.ResultDescription (e : ErrRoaming) : String := ochpErr.ResultDescription e.toochpErr

/-- Promoted `HttpResponse` of the embedded `ochpErr`. -/
def ErrRoaming.HttpResponse (e : ErrRoaming) : Option HttpResponse := ochpErr.HttpResponse e.toochpErr

/-- Promoted `HttpResponseBody` of the embedded `ochpErr`. -/
def ErrRoaming.HttpResponseBody (e : ErrRoaming) : Option (List Nat) := ochpErr.HttpResponseBody e.toochpErr

/-- `ErrUnknownResultCode` from errors.go: embeds `ochpErr`, no extra fields. -/
structure ErrUnknownResultCode extends ochpErr
  deriving DecidableEq

/-- Promoted `Error` of the embedded `ochpErr`. -/
def ErrUnknownResultCode.Error (e : ErrUnknownResultCode) : String := ochpErr.Error e.toochpErr

/-- Promoted `Unwrap` of the embedded `ochpErr`. -/
def ErrUnknownResultCode.Unwrap (e : ErrUnknownResultCode) : Option GoError := ochpErr.Unwrap e.toochpErr

/-- Promoted `ResultCode` of the embedded `ochpErr`. -/
def ErrUnknownResultCode.ResultCode (e : ErrUnknownResultCode) : String := ochpErr.ResultCode e.toochpErr

/-- Promoted `ResultDescription` of the embedded `ochpErr`. -/
def ErrUnknownResultCode.ResultDescription (e : ErrUnknownResultCode) : String := ochpErr.ResultDescription e.toochpErr

/-- Promoted `HttpResponse` of the embedded `ochpErr`. -/
def ErrUnknownResultCode.HttpResponse (e : ErrUnknownResultCode) : Option HttpResponse := ochpErr.HttpResponse e.toochpErr

/-- Promoted `HttpResponseBody` of the embedded `ochpErr`. -/
def ErrUnknownResultCode.HttpResponseBody (e : ErrUnknownResultCode) : Option (List Nat) := ochpErr.HttpResponseBody e.toochpErr

/-- `ErrHttp` from errors.go: embeds `ochpErr`, no extra fields. -/
structure ErrHttp extends ochpErr
  deriving DecidableEq

/-- Promoted `Error` of the embedded `ochpErr`. -/
def ErrHttp.Error (e : ErrHttp) : String := ochpErr.Error e.toochpErr

/-- Promoted `Unwrap` of the embedded `ochpErr`. -/
def ErrHttp.Unwrap (e : ErrHttp) : Option GoError := ochpErr.Unwrap e.toochpErr

/-- Promoted `ResultCode` of the embedded `ochpErr`. -/
def ErrHttp.ResultCode (e : ErrHttp) : String := ochpErr.ResultCode e.toochpErr

/-- Promoted `ResultDescription` of the embedded `ochpErr`. -/
def ErrHttp.ResultDescription (e : ErrHttp) : String := ochpErr.ResultDescription e.toochpErr

/-- Promoted `HttpResponse` of the embedded `ochpErr`. -/
def ErrHttp.HttpResponse (e : ErrHttp) : Option HttpResponse := ochpErr.HttpResponse e.toochpErr

/-- Promoted `HttpResponseBody` of the embedded `ochpErr`. -/
def ErrHttp.HttpResponseBody (e : ErrHttp) : Option (List Nat) := ochpErr.HttpResponseBody e.toochpErr

/-- `startsWithSeq n h` is true when the character list `n` is an initial
segment of `h`; helper for detecting substrings of rendered messages. -/
def startsWithSeq : List Char → List Char → Bool
  | [], _ => true
  | _ :: _, [] => false
  | a :: as, b :: bs => (a = b) && startsWithSeq as bs

/-- `occursIn n h` is true when the character list `n` occurs contiguously
inside `h`; helper for detecting substrings of rendered messages. -/
def occursIn (n : List Char) : List Char → Bool
  | [] => startsWithSeq n []
  | c :: t => startsWithSeq n (c :: t) || occursIn n t

/-- Concrete protocol-result failure: HTTP 204, resultCode "partly". -/
def sampleOk2xx : ochpErr := ⟨⟨⟨none⟩, some ⟨204⟩, none⟩, "partly", "item missing"⟩

/-- Concrete protocol-result failure: HTTP 404, empty resultCode, description "404". -/
def sampleNon2xx : ochpErr := ⟨⟨⟨none⟩, some ⟨404⟩, none⟩, "", "404"⟩

/-- Concrete protocol-result failure with no captured HTTP response but result fields set. -/
def sampleNoResp : ochpErr := ⟨⟨⟨none⟩, none, none⟩, "not-found", "id unknown"⟩

/-- Concrete decode failure: HTTP 200, no wrapped cause. -/
def sampleDecode200 : ErrDecode := ⟨⟨none⟩, some ⟨200⟩, none⟩

/-- Concrete decode failure: HTTP 200, wrapped parse error. -/
def sampleDecodeWrapped : ErrDecode := ⟨⟨some ⟨"xml eof"⟩⟩, some ⟨200⟩, none⟩

/-- Concrete decode failure with neither response nor wrapped cause. -/
def sampleDecodeBare : ErrDecode := ⟨⟨none⟩, none, none⟩

/-- Concrete protocol-result failure: HTTP 500, empty resultCode, non-empty description. -/
def sampleEmptyCode : ochpErr := ⟨⟨⟨none⟩, some ⟨500⟩, none⟩, "", "internal error"⟩

/-- The character list of an appended string is the appended character lists. -/
theorem le_data_length_append (a x : String) : a.data.length ≤ (a ++ x).data.length := by
  rw [String.data_append a x, List.length_append]
  omega

/-- Indexing an appended string inside the left part reads the left part. -/
theorem data_getElem_append_left (a x : String) (n : Nat) (h : n < a.data.length) :
    (a ++ x).data[n]? = a.data[n]? := by
  rw [String.data_append a x, List.getElem?_append, if_pos h]

/-- Two strings differing at some character position are distinct. -/
theorem string_ne_of_data_getElem (s t : String) (n : Nat)
    (h : s.data[n]? ≠ t.data[n]?) : s ≠ t :=
  fun he => h (by rw [he])

/-- Whenever an HTTP response was captured, the decode-stage message carries
`'H'` (of `HTTP`) at character position 22. -/
theorem errDecode_error_data22 (e : ErrDecode) (r : HttpResponse)
    (hr : e.httpResponse = some r) :
    (ErrDecode.Error e).data[22]? = some 'H' := by
  simp only [ErrDecode.Error, hr]
  rw [← String.append_assoc "server responded" " with HTTP status" (toString r.StatusCode)]
  have b0 : 22 < ("server responded" ++ " with HTTP status").data.length := by decide
  have b1 := Nat.lt_of_lt_of_le b0 (le_data_length_append _ (toString r.StatusCode))
  have b2 := Nat.lt_of_lt_of_le b1
    (le_data_length_append _ ", but response was unable to be decoded successfully")
  rw [data_getElem_append_left _ _ 22 b2, data_getElem_append_left _ _ 22 b1,
    data_getElem_append_left _ _ 22 b0]
  decide

/-- When a response is captured and some result field is set, the
protocol-result message carries `'h'` (of `http`) or `'r'` (of `resultCode`)
at character position 22. -/
theorem ochpErr_error_data22 (e : ochpErr) (r : HttpResponse)
    (hr : e.httpResponse = some r)
    (hne : ¬(e.resultCode = "" ∧ e.resultDescription = "")) :
    (ochpErr.Error e).data[22]? = some 'h' ∨ (ochpErr.Error e).data[22]? = some 'r' := by
  simp only [ochpErr.Error, hr]
  rw [if_neg hne]
  by_cases hin : 200 ≤ r.StatusCode ∧ r.StatusCode < 300
  · left
    rw [if_pos hin]
    have b0 : 22 < ("server responded with http status ").data.length := by decide
    have b1 := Nat.lt_of_lt_of_le b0 (le_data_length_append _ (toString r.StatusCode))
    have b2 := Nat.lt_of_lt_of_le b1 (le_data_length_append _ " and resultCode \"")
    have b3 := Nat.lt_of_lt_of_le b2 (le_data_length_append _ e.resultCode)
    have b4 := Nat.lt_of_lt_of_le b3 (le_data_length_append _ "\": ")
    rw [data_getElem_append_left _ _ 22 b4, data_getElem_append_left _ _ 22 b3,
      data_getElem_append_left _ _ 22 b2, data_getElem_append_left _ _ 22 b1,
      data_getElem_append_left _ _ 22 b0]
    decide
  · right
    rw [if_neg hin]
    have b0 : 22 < ("server responded with resultCode \"").data.length := by decide
    have b1 := Nat.lt_of_lt_of_le b0 (le_data_length_append _ e.resultCode)
    have b2 := Nat.lt_of_lt_of_le b1 (le_data_length_append _ "\": ")
    rw [data_getElem_append_left _ _ 22 b2, data_getElem_append_left _ _ 22 b1,
      data_getElem_append_left _ _ 22 b0]
    decide

/-- C1: for every `ochpErr` whose `httpResponse` is non-nil with status in
[200,300) and whose result fields are not both empty, `Error()` is exactly
`server responded with http status <status> and resultCode "<code>": <description>`. -/
theorem ochpErr_error_2xx_format (e : ochpErr) (r : HttpResponse)
    (hr : e.httpResponse = some r)
    (hin : 200 ≤ r.StatusCode ∧ r.StatusCode < 300)
    (hne : ¬(e.resultCode = "" ∧ e.resultDescription = "")) :
    ochpErr.Error e =
      "server responded with http status " ++ toString r.StatusCode ++
        " and resultCode \"" ++ e.resultCode ++ "\": " ++ e.resultDescription := by
  simp only [ochpErr.Error, hr]
  rw [if_neg hne, if_pos hin]

/-- C1 witness: the 2xx format theorem evaluated on a concrete error. -/
theorem ochpErr_error_2xx_format_witness :
    ochpErr.Error sampleOk2xx =
      "server responded with http status 204 and resultCode \"partly\": item missing" :=
  (ochpErr_error_2xx_format sampleOk2xx ⟨204⟩ rfl (by decide) (by decide)).trans (by decide)

/-- C2 counterexample: an `ochpErr` with HTTP 404, empty resultCode and
resultDescription "404" satisfies the claim's hypotheses, renders the claimed
format, and yet the status digits do occur in the message (inside the
substituted description), refuting the "no status digits present" part. -/
theorem ochpErr_error_non2xx_cex :
    sampleNon2xx.httpResponse = some ⟨404⟩ ∧
    ¬(200 ≤ (404 : Int) ∧ (404 : Int) < 300) ∧
    ¬(sampleNon2xx.resultCode = "" ∧ sampleNon2xx.resultDescription = "") ∧
    ochpErr.Error sampleNon2xx = "server responded with resultCode \"\": 404" ∧
    occursIn (toString (404 : Int)).data (ochpErr.Error sampleNon2xx).data = true := by
  decide

/-- C2 amended: for every `ochpErr` whose `httpResponse` is non-nil with status
outside [200,300) and whose result fields are not both empty, `Error()` is
exactly `server responded with resultCode "<code>": <description>`; the fixed
template carries no status digits, though the substituted fields may. -/
theorem ochpErr_error_non2xx_format (e : ochpErr) (r : HttpResponse)
    (hr : e.httpResponse = some r)
    (hout : ¬(200 ≤ r.StatusCode ∧ r.StatusCode < 300))
    (hne : ¬(e.resultCode = "" ∧ e.resultDescription = "")) :
    ochpErr.Error e =
      "server responded with resultCode \"" ++ e.resultCode ++ "\": " ++ e.resultDescription := by
  simp only [ochpErr.Error, hr]
  rw [if_neg hne, if_neg hout]

/-- C2 witness: the non-2xx format theorem evaluated on a concrete error. -/
theorem ochpErr_error_non2xx_format_witness :
    ochpErr.Error sampleNon2xx = "server responded with resultCode \"\": 404" :=
  (ochpErr_error_non2xx_format sampleNon2xx ⟨404⟩ rfl (by decide) (by decide)).trans (by decide)

/-- C3 counterexample: with `httpResponse` nil but result fields set, the code
still falls back to the decode-stage message, so falling back is not
equivalent to "neither result fields nor an HTTP response are present". -/
theorem ochpErr_fallback_iff_cex :
    ¬((ochpErr.Error sampleNoResp = ErrDecode.Error sampleNoResp.toErrDecode) ↔
      (sampleNoResp.resultCode = "" ∧ sampleNoResp.resultDescription = "" ∧
        sampleNoResp.httpResponse = none)) := by
  decide

/-- C3 amended: `ochpErr.Error` returns the decode-stage message whenever the
HTTP response is absent or both result fields are empty; whenever a response
is present and at least one result field is set, a resultCode-bearing format
is used instead. -/
theorem ochpErr_fallback_rule (e : ochpErr) :
    ((e.httpResponse = none ∨ (e.resultCode = "" ∧ e.resultDescription = "")) →
      ochpErr.Error e = ErrDecode.Error e.toErrDecode) ∧
    (∀ r, e.httpResponse = some r → ¬(e.resultCode = "" ∧ e.resultDescription = "") →
      ochpErr.Error e =
        if 200 ≤ r.StatusCode ∧ r.StatusCode < 300 then
          "server responded with http status " ++ toString r.StatusCode ++
            " and resultCode \"" ++ e.resultCode ++ "\": " ++ e.resultDescription
        else
          "server responded with resultCode \"" ++ e.resultCode ++ "\": " ++ e.resultDescription) := by
  constructor
  · rintro (hn | hb)
    · simp only [ochpErr.Error, hn]
    · cases hresp : e.httpResponse with
      | none => simp only [ochpErr.Error, hresp]
      | some r =>
        simp only [ochpErr.Error, hresp]
        rw [if_pos hb]
  · intro r hr hne
    simp only [ochpErr.Error, hr]
    rw [if_neg hne]

/-- C3 witness: the fallback rule evaluated on concrete errors, one per branch. -/
theorem ochpErr_fallback_rule_witness :
    ochpErr.Error sampleNoResp =
      "server responded, but response was unable to be decoded successfully" ∧
    ochpErr.Error sampleOk2xx =
      "server responded with http status 204 and resultCode \"partly\": item missing" :=
  ⟨((ochpErr_fallback_rule sampleNoResp).1 (Or.inl rfl)).trans (by decide),
   ((ochpErr_fallback_rule sampleOk2xx).2 ⟨204⟩ rfl (by decide)).trans (by decide)⟩

/-- C4 counterexample: for a decode failure with HTTP 200 and no wrapped
cause, the message is not the claimed one with a space between `status` and
the code — the code renders `status200` with no separating space. -/
theorem errDecode_message_space_cex :
    sampleDecode200.httpResponse = some ⟨200⟩ ∧
    sampleDecode200.wrapped = none ∧
    ErrDecode.Error sampleDecode200 ≠
      "server responded with HTTP status 200, but response was unable to be decoded successfully" ∧
    ErrDecode.Error sampleDecode200 =
      "server responded with HTTP status200, but response was unable to be decoded successfully" := by
  decide

/-- C4 amended: `ErrDecode.Error` follows the template
`server responded[ with HTTP status<code>], but response was unable to be
decoded successfully[:\n<cause>]`: the status clause (no space before the
code) appears iff `httpResponse` is non-nil, and the cause clause (colon plus
newline) appears iff a wrapped error exists. -/
theorem errDecode_message_format (e : ErrDecode) :
    (e.httpResponse = none → e.wrapped = none →
      ErrDecode.Error e =
        "server responded, but response was unable to be decoded successfully") ∧
    (∀ r, e.httpResponse = some r → e.wrapped = none →
      ErrDecode.Error e =
        "server responded with HTTP status" ++ toString r.StatusCode ++
          ", but response was unable to be decoded successfully") ∧
    (∀ w, e.httpResponse = none → e.wrapped = some w →
      ErrDecode.Error e =
        "server responded, but response was unable to be decoded successfully:\n" ++
          GoError.Error w) ∧
    (∀ r w, e.httpResponse = some r → e.wrapped = some w →
      ErrDecode.Error e =
        "server responded with HTTP status" ++ toString r.StatusCode ++
          ", but response was unable to be decoded successfully:\n" ++ GoError.Error w) := by
  refine ⟨?_, ?_, ?_, ?_⟩
  · intro hr hw
    simp only [ErrDecode.Error, ErrDecode.Unwrap, Err.Unwrap, hr, hw]
    rfl
  · intro r hr hw
    simp only [ErrDecode.Error, ErrDecode.Unwrap, Err.Unwrap, hr, hw]
    simp only [String.append_assoc, String.append_empty, String.empty_append]
    rfl
  · intro w hr hw
    simp only [ErrDecode.Error, ErrDecode.Unwrap, Err.Unwrap, hr, hw]
    simp only [String.append_assoc, String.append_empty, String.empty_append]
    rfl
  · intro r w hr hw
    simp only [ErrDecode.Error, ErrDecode.Unwrap, Err.Unwrap, hr, hw]
    simp only [String.append_assoc, String.append_empty, String.empty_append]
    rfl

/-- C4 witness: the decode-message template evaluated per clause combination. -/
theorem errDecode_message_format_witness :
    ErrDecode.Error sampleDecodeBare =
      "server responded, but response was unable to be decoded successfully" ∧
    ErrDecode.Error sampleDecode200 =
      "server responded with HTTP status200, but response was unable to be decoded successfully" :=
  ⟨(errDecode_message_format sampleDecodeBare).1 rfl rfl,
   ((errDecode_message_format sampleDecode200).2.1 ⟨200⟩ rfl rfl).trans (by decide)⟩

/-- C5: for a decode failure with HTTP 200 and a wrapped cause, the message is
exactly `server responded with HTTP status200, but response was unable to be
decoded successfully:` followed by a newline and the wrapped error's text. -/
theorem errDecode_status200_cause_format (e : ErrDecode) (w : GoError)
    (hr : e.httpResponse = some ⟨200⟩) (hw : e.wrapped = some w) :
    ErrDecode.Error e =
      "server responded with HTTP status200, but response was unable to be decoded successfully:\n" ++
        GoError.Error w := by
  simp only [ErrDecode.Error, ErrDecode.Unwrap, Err.Unwrap, hr, hw]
  simp only [String.append_assoc, String.append_empty, String.empty_append]
  rfl

/-- C5 witness: the status-200 decode message evaluated on a concrete error. -/
theorem errDecode_status200_cause_format_witness :
    ErrDecode.Error sampleDecodeWrapped =
      "server responded with HTTP status200, but response was unable to be decoded successfully:\nxml eof" :=
  (errDecode_status200_cause_format sampleDecodeWrapped ⟨"xml eof"⟩ rfl rfl).trans (by decide)

/-- C6: every transport failure `Err` has empty result fields, no HTTP
response or body, and its message is the wrapped cause's text when present,
else the fixed string `unknown error`. -/
theorem err_transport_accessors (e : Err) :
    Err.ResultCode e = "" ∧ Err.ResultDescription e = "" ∧
    Err.HttpResponse e = none ∧ Err.HttpResponseBody e = none ∧
    (∀ w, e.wrapped = some w → Err.Error e = GoError.Error w) ∧
    (e.wrapped = none → Err.Error e = "unknown error") := by
  refine ⟨rfl, rfl, rfl, rfl, ?_, ?_⟩
  · intro w hw
    simp only [Err.Error, hw]
  · intro hw
    simp only [Err.Error, hw]

/-- C6 witness: transport-failure accessors evaluated on concrete errors. -/
theorem err_transport_accessors_witness :
    Err.Error ⟨some ⟨"connection refused"⟩⟩ = "connection refused" ∧
    Err.Error ⟨none⟩ = "unknown error" :=
  ⟨((err_transport_accessors ⟨some ⟨"connection refused"⟩⟩).2.2.2.2.1
      ⟨"connection refused"⟩ rfl).trans rfl,
   (err_transport_accessors ⟨none⟩).2.2.2.2.2 rfl⟩

/-- C7: every `ErrEmptyResponse` renders the same fixed message, independent
of the wrapped cause, response, and body snapshot stored in the value. -/
theorem errEmptyResponse_fixed_message (e₁ e₂ : ErrEmptyResponse) :
    ErrEmptyResponse.Error e₁ =
      "Server unexpectedly responded with an empty response. This indicates an internal error. This might be caused by a bad request" ∧
    ErrEmptyResponse.Error e₁ = ErrEmptyResponse.Error e₂ :=
  ⟨rfl, rfl⟩

/-- C8: diagnostic accessors never report data for a stage beyond the
variant's own: `Err` has no response, body, or result fields;
`ErrDecode` and `ErrEmptyResponse` have empty result fields; only `ochpErr`
(and its specializations) can carry non-empty result fields. -/
theorem accessors_stage_invariant (a : Err) (b : ErrDecode) (c : ErrEmptyResponse) :
    Err.HttpResponse a = none ∧ Err.HttpResponseBody a = none ∧
    Err.ResultCode a = "" ∧ Err.ResultDescription a = "" ∧
    ErrDecode.ResultCode b = "" ∧ ErrDecode.ResultDescription b = "" ∧
    ErrEmptyResponse.ResultCode c = "" ∧ ErrEmptyResponse.ResultDescription c = "" ∧
    (∃ o : ochpErr, ochpErr.ResultCode o ≠ "" ∧ ochpErr.ResultDescription o ≠ "") :=
  ⟨rfl, rfl, rfl, rfl, rfl, rfl, rfl, rfl,
    ⟨⟨⟨⟨none⟩, none, none⟩, "partly", "d"⟩, by decide, by decide⟩⟩

/-- C9: an `ochpErr` with a captured response, empty resultCode and non-empty
resultDescription does not fall back to the decode-stage message: it renders
one of the resultCode formats with an empty quoted code. -/
theorem ochpErr_empty_code_message (e : ochpErr) (r : HttpResponse)
    (hr : e.httpResponse = some r) (hc : e.resultCode = "")
    (hd : e.resultDescription ≠ "") :
    ochpErr.Error e ≠ ErrDecode.Error e.toErrDecode ∧
    ochpErr.Error e =
      (if 200 ≤ r.StatusCode ∧ r.StatusCode < 300 then
        "server responded with http status " ++ toString r.StatusCode ++
          " and resultCode \"\": " ++ e.resultDescription
      else
        "server responded with resultCode \"\": " ++ e.resultDescription) := by
  have hne : ¬(e.resultCode = "" ∧ e.resultDescription = "") := fun h => hd h.2
  constructor
  · apply string_ne_of_data_getElem _ _ 22
    rw [errDecode_error_data22 e.toErrDecode r hr]
    rcases ochpErr_error_data22 e r hr hne with h | h <;> rw [h] <;> decide
  · simp only [ochpErr.Error, hr]
    rw [if_neg hne, hc]
    simp only [String.append_assoc, String.append_empty, String.empty_append]
    rfl

/-- C9 witness: the empty-code message theorem evaluated on a concrete error. -/
theorem ochpErr_empty_code_message_witness :
    ochpErr.Error sampleEmptyCode ≠ ErrDecode.Error sampleEmptyCode.toErrDecode ∧
    ochpErr.Error sampleEmptyCode = "server responded with resultCode \"\": internal error" := by
  have h := ochpErr_empty_code_message sampleEmptyCode ⟨500⟩ rfl rfl (by decide)
  exact ⟨h.1, h.2.trans (by decide)⟩

/-- C10: each of the ten wrapper variants built from an embedded `ochpErr`
state agrees with it on every capability accessor, so the variants differ
only in type identity. -/
theorem wrapper_variants_promote (x : ochpErr) :
    (ErrPartly.Error ⟨x⟩ = ochpErr.Error x ∧ ErrPartly.Unwrap ⟨x⟩ = ochpErr.Unwrap x ∧
      ErrPartly.ResultCode ⟨x⟩ = ochpErr.ResultCode x ∧
      ErrPartly.ResultDescription ⟨x⟩ = ochpErr.ResultDescription x ∧
      ErrPartly.HttpResponse ⟨x⟩ = ochpErr.HttpResponse x ∧
      ErrPartly.HttpResponseBody ⟨x⟩ = ochpErr.HttpResponseBody x) ∧
    (ErrNotFound.Error ⟨x⟩ = ochpErr.Error x ∧ ErrNotFound.Unwrap ⟨x⟩ = ochpErr.Unwrap x ∧
      ErrNotFound.ResultCode ⟨x⟩ = ochpErr.ResultCode x ∧
      ErrNotFound.ResultDescription ⟨x⟩ = ochpErr.ResultDescription x ∧
      ErrNotFound.HttpResponse ⟨x⟩ = ochpErr.HttpResponse x ∧
      ErrNotFound.HttpResponseBody ⟨x⟩ = ochpErr.HttpResponseBody x) ∧
    (ErrNotAuthorized.Error ⟨x⟩ = ochpErr.Error x ∧ ErrNotAuthorized.Unwrap ⟨x⟩ = ochpErr.Unwrap x ∧
      ErrNotAuthorized.ResultCode ⟨x⟩ = ochpErr.ResultCode x ∧
      ErrNotAuthorized.ResultDescription ⟨x⟩ = ochpErr.ResultDescription x ∧
      ErrNotAuthorized.HttpResponse ⟨x⟩ = ochpErr.HttpResponse x ∧
      ErrNotAuthorized.HttpResponseBody ⟨x⟩ = ochpErr.HttpResponseBody x) ∧
    (ErrNotSupported.Error ⟨x⟩ = ochpErr.Error x ∧ ErrNotSupported.Unwrap ⟨x⟩ = ochpErr.Unwrap x ∧
      ErrNotSupported.ResultCode ⟨x⟩ = ochpErr.ResultCode x ∧
      ErrNotSupported.ResultDescription ⟨x⟩ = ochpErr.ResultDescription x ∧
      ErrNotSupported.HttpResponse ⟨x⟩ = ochpErr.HttpResponse x ∧
      ErrNotSupported.HttpResponseBody ⟨x⟩ = ochpErr.HttpResponseBody x) ∧
    (ErrInvalidId.Error ⟨x⟩ = ochpErr.Error x ∧ ErrInvalidId.Unwrap ⟨x⟩ = ochpErr.Unwrap x ∧
      ErrInvalidId.ResultCode ⟨x⟩ = ochpErr.ResultCode x ∧
      ErrInvalidId.ResultDescription ⟨x⟩ = ochpErr.ResultDescription x ∧
      ErrInvalidId.HttpResponse ⟨x⟩ = ochpErr.HttpResponse x ∧
      ErrInvalidId.HttpResponseBody ⟨x⟩ = ochpErr.HttpResponseBody x) ∧
    (ErrServer.Error ⟨x⟩ = ochpErr.Error x ∧ ErrServer.Unwrap ⟨x⟩ = ochpErr.Unwrap x ∧
      ErrServer.ResultCode ⟨x⟩ = ochpErr.ResultCode x ∧
      ErrServer.ResultDescription ⟨x⟩ = ochpErr.ResultDescription x ∧
      ErrServer.HttpResponse ⟨x⟩ = ochpErr.HttpResponse x ∧
      ErrServer.HttpResponseBody ⟨x⟩ = ochpErr.HttpResponseBody x) ∧
    (ErrFormat.Error ⟨x⟩ = ochpErr.Error x ∧ ErrFormat.Unwrap ⟨x⟩ = ochpErr.Unwrap x ∧
      ErrFormat.ResultCode ⟨x⟩ = ochpErr.ResultCode x ∧
      ErrFormat.ResultDescription ⟨x⟩ = ochpErr.ResultDescription x ∧
      ErrFormat.HttpResponse ⟨x⟩ = ochpErr.HttpResponse x ∧
      ErrFormat.HttpResponseBody ⟨x⟩ = ochpErr.HttpResponseBody x) ∧
    (ErrRoaming.Error ⟨x⟩ = ochpErr.Error x ∧ ErrRoaming.Unwrap ⟨x⟩ = ochpErr.Unwrap x ∧
      ErrRoaming.ResultCode ⟨x⟩ = ochpErr.ResultCode x ∧
      ErrRoaming.ResultDescription ⟨x⟩ = ochpErr.ResultDescription x ∧
      ErrRoaming.HttpResponse ⟨x⟩ = ochpErr.HttpResponse x ∧
      ErrRoaming.HttpResponseBody ⟨x⟩ = ochpErr.HttpResponseBody x) ∧
    (ErrUnknownResultCode.Error ⟨x⟩ = ochpErr.Error x ∧
      ErrUnknownResultCode.Unwrap ⟨x⟩ = ochpErr.Unwrap x ∧
      ErrUnknownResultCode.ResultCode ⟨x⟩ = ochpErr.ResultCode x ∧
      ErrUnknownResultCode.ResultDescription ⟨x⟩ = ochpErr.ResultDescription x ∧
      ErrUnknownResultCode.HttpResponse ⟨x⟩ = ochpErr.HttpResponse x ∧
      ErrUnknownResultCode.HttpResponseBody ⟨x⟩ = ochpErr.HttpResponseBody x) ∧
    (ErrHttp.Error ⟨x⟩ = ochpErr.Error x ∧ ErrHttp.Unwrap ⟨x⟩ = ochpErr.Unwrap x ∧
      ErrHttp.ResultCode ⟨x⟩ = ochpErr.ResultCode x ∧
      ErrHttp.ResultDescription ⟨x⟩ = ochpErr.ResultDescription x ∧
      ErrHttp.HttpResponse ⟨x⟩ = ochpErr.HttpResponse x ∧
      ErrHttp.HttpResponseBody ⟨x⟩ = ochpErr.HttpResponseBody x) :=
  ⟨⟨rfl, rfl, rfl, rfl, rfl, rfl⟩, ⟨rfl, rfl, rfl, rfl, rfl, rfl⟩,
   ⟨rfl, rfl, rfl, rfl, rfl, rfl⟩, ⟨rfl, rfl, rfl, rfl, rfl, rfl⟩,
   ⟨rfl, rfl, rfl, rfl, rfl, rfl⟩, ⟨rfl, rfl, rfl, rfl, rfl, rfl⟩,
   ⟨rfl, rfl, rfl, rfl, rfl, rfl⟩, ⟨rfl, rfl, rfl, rfl, rfl, rfl⟩,
   ⟨rfl, rfl, rfl, rfl, rfl, rfl⟩, ⟨rfl, rfl, rfl, rfl, rfl, rfl⟩⟩
